import Mathlib

/-!
Verification of the Tractivity work-timer core: the `Timer` elapsed-time
accumulator and the `InactivityMonitor` auto-pause state machine from
`src/renderer/timer.ts` and `src/renderer/inactivityMonitor.ts`.

Timestamps and durations are modelled as rationals (JS numbers on the
values the program manipulates); `Date.now()` is an explicit `now`
argument to every operation that reads the clock.
-/

namespace Tractivity

/-- The `Timer` class: `startTimestamp` is `some` while running, `none`
while paused; `accumulatedMs` is the time accrued while previously
running. -/
structure Timer where
  startTimestamp : Option ℚ
  accumulatedMs : ℚ
  deriving Repr, DecidableEq

namespace Timer

/-- `isRunning()`: `startTimestamp !== null`. -/
def isRunning (t : Timer) : Bool :=
  t.startTimestamp.isSome

/-- `start()`: no-op if already running, else records `now`. -/
def start (t : Timer) (now : ℚ) : Timer :=
  if t.isRunning then t else { t with startTimestamp := some now }

/-- `pause()`: no-op if not running, else adds `now - (startTimestamp ?? 0)`
to `accumulatedMs` and clears `startTimestamp`. The `?? 0` null-coalescing
fallback of the source is kept as `Option.getD 0`. -/
def pause (t : Timer) (now : ℚ) : Timer :=
  if !t.isRunning then t
  else { startTimestamp := none,
         accumulatedMs := t.accumulatedMs + (now - t.startTimestamp.getD 0) }

/-- `reset()`: unconditionally zeroes `accumulatedMs` and clears
`startTimestamp`. -/
def reset (_t : Timer) : Timer :=
  { startTimestamp := none, accumulatedMs := 0 }

/-- `getElapsedMs()`: `accumulatedMs` if paused, else
`accumulatedMs + (now - (startTimestamp ?? 0))`. -/
def getElapsedMs (t : Timer) (now : ℚ) : ℚ :=
  if !t.isRunning then t.accumulatedMs
  else t.accumulatedMs + (now - t.startTimestamp.getD 0)

/-- Variant of `pause` whose null-coalescing fallback is an arbitrary
default `d` instead of the source's literal `0`; used to show the
fallback branch is never taken. -/
def pauseWithDefault (t : Timer) (now d : ℚ) : Timer :=
  if !t.isRunning then t
  else { startTimestamp := none,
         accumulatedMs := t.accumulatedMs + (now - t.startTimestamp.getD d) }

/-- Variant of `getElapsedMs` whose null-coalescing fallback is an
arbitrary default `d` instead of the source's literal `0`. -/
def getElapsedMsWithDefault (t : Timer) (now d : ℚ) : ℚ :=
  if !t.isRunning then t.accumulatedMs
  else t.accumulatedMs + (now - t.startTimestamp.getD d)

end Timer

/-- The `FakeTimer` implementation of the `TimerLike` capability from
`tests/inactivityMonitor.test.ts`: it records how often the monitor
invoked `start()` and `pause()`. -/
structure FakeTimer where
  running : Bool
  startCalls : Nat
  pauseCalls : Nat
  deriving Repr, DecidableEq

namespace FakeTimer

/-- `start()`: no-op if running, else sets `running` and counts the call. -/
def start (t : FakeTimer) : FakeTimer :=
  if t.running then t
  else { t with running := true, startCalls := t.startCalls + 1 }

/-- `pause()`: no-op if not running, else clears `running` and counts the
call. -/
def pause (t : FakeTimer) : FakeTimer :=
  if !t.running then t
  else { t with running := false, pauseCalls := t.pauseCalls + 1 }

/-- `isRunning()` of the fake timer. -/
def isRunning (t : FakeTimer) : Bool :=
  t.running

end FakeTimer

/-- One observed behaviour of the optional idle-time provider at a given
`evaluate()` tick: it can throw synchronously, return a promise that
rejects, or produce a number. `value none` models a non-finite double
(`NaN` or `±Infinity`), which fails the `Number.isFinite` check;
`value (some q)` models the finite number `q`. -/
inductive ProviderOutcome where
  | syncThrow
  | asyncReject
  | value (v : Option ℚ)
  deriving Repr, DecidableEq

/-- The validated system idle signal of one `evaluate()` tick:
`some (idleSeconds * 1000)` when the provider is configured (`prov ≠ none`)
and produced a finite value `≥ 0`, and `none` otherwise (no provider,
synchronous throw, rejected promise, non-finite or negative value). -/
def systemIdleMs (prov : Option ProviderOutcome) : Option ℚ :=
  match prov with
  | none => none
  | some .syncThrow => none
  | some .asyncReject => none
  | some (.value none) => none
  | some (.value (some q)) => if 0 ≤ q then some (q * 1000) else none

/-- The `InactivityMonitor` state, observed through the `FakeTimer`
capability of the test suite; `notifyCount` counts the invocations of the
optional `onStateChange` callback. -/
structure InactivityMonitor where
  timer : FakeTimer
  thresholdMs : ℚ
  pausedByIdle : Bool
  evaluating : Bool
  lastActivity : ℚ
  lastSystemIdleMs : Option ℚ
  lastEffectiveIdleMs : ℚ
  notifyCount : Nat
  deriving Repr, DecidableEq

namespace InactivityMonitor

/-- The constructor: `pausedByIdle = false`, `evaluating = false`,
`lastActivity = Date.now()`, no cached system idle, zero effective idle.
The borrowed timer may be in any state. -/
def init (timer : FakeTimer) (thresholdMs : ℚ) (now : ℚ) : InactivityMonitor :=
  { timer := timer
    thresholdMs := thresholdMs
    pausedByIdle := false
    evaluating := false
    lastActivity := now
    lastSystemIdleMs := none
    lastEffectiveIdleMs := 0
    notifyCount := 0 }

/-- `markActivity(timestamp)`: sets `lastActivity` unconditionally; if the
timer is not running and `pausedByIdle` is set, clears the flag, starts
the timer and notifies. -/
def markActivity (m : InactivityMonitor) (timestamp : ℚ) : InactivityMonitor :=
  let m1 := { m with lastActivity := timestamp }
  if !m1.timer.isRunning && m1.pausedByIdle then
    { m1 with pausedByIdle := false
              timer := m1.timer.start
              notifyCount := m1.notifyCount + 1 }
  else m1

/-- Steps 2–5 of `evaluate()`: validate the provider signal, refresh
`lastActivity` from a fresh system signal, compute the effective idle and
cache the diagnostics. -/
def evalSignal (m : InactivityMonitor) (now : ℚ) (prov : Option ProviderOutcome) :
    InactivityMonitor :=
  let idleMsFromSystem := systemIdleMs prov
  let m1 :=
    match idleMsFromSystem with
    | some idleMs => if idleMs < m.thresholdMs then { m with lastActivity := now } else m
    | none => m
  let elapsedSinceActivity := now - m1.lastActivity
  let effectiveIdle := idleMsFromSystem.getD elapsedSinceActivity
  { m1 with lastSystemIdleMs := idleMsFromSystem
            lastEffectiveIdleMs := effectiveIdle }

/-- Step 6 of `evaluate()`: the pause/resume decision, reading the freshly
cached `lastEffectiveIdleMs`. -/
def evalDecide (m : InactivityMonitor) (now : ℚ) : InactivityMonitor :=
  if m.timer.isRunning then
    if m.thresholdMs ≤ m.lastEffectiveIdleMs then
      { m with timer := m.timer.pause
               pausedByIdle := true
               notifyCount := m.notifyCount + 1 }
    else m
  else if m.pausedByIdle = true ∧ m.lastEffectiveIdleMs < m.thresholdMs then
    { m with pausedByIdle := false
             timer := m.timer.start
             lastActivity := now
             notifyCount := m.notifyCount + 1 }
  else m

/-- `evaluate()`: drops the tick when the re-entrancy guard is set;
otherwise sets the guard, runs the signal and decision steps, and clears
the guard on the way out (the `finally` of the source). `prov` is the
behaviour of the idle provider at this tick (`none`: no provider
configured). -/
def evaluate (m : InactivityMonitor) (now : ℚ) (prov : Option ProviderOutcome) :
    InactivityMonitor :=
  if m.evaluating then m
  else
    let m1 := { m with evaluating := true }
    let m2 := (m1.evalSignal now prov).evalDecide now
    { m2 with evaluating := false }

/-- `clearAutoPause()`: resets `lastActivity` and `lastEffectiveIdleMs`;
clears `pausedByIdle` and notifies only when the flag was set; never
touches the timer. -/
def clearAutoPause (m : InactivityMonitor) (now : ℚ) : InactivityMonitor :=
  let m1 := { m with lastActivity := now, lastEffectiveIdleMs := 0 }
  if m1.pausedByIdle then
    { m1 with pausedByIdle := false, notifyCount := m1.notifyCount + 1 }
  else m1

/-- `isPausedByInactivity()`. -/
def isPausedByInactivity (m : InactivityMonitor) : Bool :=
  m.pausedByIdle

/-- A sequence of further `evaluate()` ticks with no provider, at the
listed instants. -/
def evalTimes (m : InactivityMonitor) (ts : List ℚ) : InactivityMonitor :=
  ts.foldl (fun s t => s.evaluate t none) m

/-- The monitor states reachable from construction by any sequence of
`markActivity`, `evaluate` and `clearAutoPause` calls. -/
inductive Reachable : InactivityMonitor → Prop where
  | init (timer : FakeTimer) (thresholdMs now : ℚ) :
      Reachable (InactivityMonitor.init timer thresholdMs now)
  | markActivity {m : InactivityMonitor} (ts : ℚ) :
      Reachable m → Reachable (m.markActivity ts)
  | evaluate {m : InactivityMonitor} (now : ℚ) (prov : Option ProviderOutcome) :
      Reachable m → Reachable (m.evaluate now prov)
  | clearAutoPause {m : InactivityMonitor} (now : ℚ) :
      Reachable m → Reachable (m.clearAutoPause now)

end InactivityMonitor

/-- Modelled from the spec: the revision of `inactivityMonitor.ts` that
`index.ts` compiles against also carries an `enabled` flag with
`setEnabled`/`setThresholdMs` mutators ("`enabled: boolean` — gates all
automatic transitions"; "Decision, only if `enabled`"); that revision is
missing from the snapshot — the monitor class present there has neither —
so the flag is modelled here on top of the monitor state above, following
§4.2 of the spec. -/
structure MonitorWithEnabled extends InactivityMonitor where
  enabled : Bool
  deriving Repr, DecidableEq

namespace MonitorWithEnabled

/-- Modelled from the spec: `setEnabled(bool)` configuration mutator. -/
def setEnabled (m : MonitorWithEnabled) (b : Bool) : MonitorWithEnabled :=
  { m with enabled := b }

/-- Modelled from the spec: `setThresholdMs(ms)` configuration mutator. -/
def setThresholdMs (m : MonitorWithEnabled) (ms : ℚ) : MonitorWithEnabled :=
  { m with thresholdMs := ms }

/-- Modelled from the spec: `evaluate()` with the `enabled` gate — the
re-entrancy guard and steps 2–5 (signal validation, diagnostics refresh)
run as in the monitor above, and the step-6 decision runs only when
`enabled` is set. -/
def evaluate (m : MonitorWithEnabled) (now : ℚ) (prov : Option ProviderOutcome) :
    MonitorWithEnabled :=
  if m.evaluating then m
  else
    let m1 := InactivityMonitor.evalSignal { m.toInactivityMonitor with evaluating := true }
      now prov
    let m2 := if m.enabled then m1.evalDecide now else m1
    { toInactivityMonitor := { m2 with evaluating := false }, enabled := m.enabled }

end MonitorWithEnabled

/-! ## Helper lemmas -/

namespace InactivityMonitor

theorem evalSignal_timer (m : InactivityMonitor) (now : ℚ) (prov : Option ProviderOutcome) :
    (m.evalSignal now prov).timer = m.timer := by
  unfold evalSignal
  rcases systemIdleMs prov with _ | q
  · rfl
  · by_cases h : q < m.thresholdMs <;> simp [h]

theorem evalSignal_pausedByIdle (m : InactivityMonitor) (now : ℚ)
    (prov : Option ProviderOutcome) :
    (m.evalSignal now prov).pausedByIdle = m.pausedByIdle := by
  unfold evalSignal
  rcases systemIdleMs prov with _ | q
  · rfl
  · by_cases h : q < m.thresholdMs <;> simp [h]

theorem evalSignal_notifyCount (m : InactivityMonitor) (now : ℚ)
    (prov : Option ProviderOutcome) :
    (m.evalSignal now prov).notifyCount = m.notifyCount := by
  unfold evalSignal
  rcases systemIdleMs prov with _ | q
  · rfl
  · by_cases h : q < m.thresholdMs <;> simp [h]

theorem evalSignal_thresholdMs (m : InactivityMonitor) (now : ℚ)
    (prov : Option ProviderOutcome) :
    (m.evalSignal now prov).thresholdMs = m.thresholdMs := by
  unfold evalSignal
  rcases systemIdleMs prov with _ | q
  · rfl
  · by_cases h : q < m.thresholdMs <;> simp [h]

theorem evalSignal_evaluating (m : InactivityMonitor) (now : ℚ)
    (prov : Option ProviderOutcome) :
    (m.evalSignal now prov).evaluating = m.evaluating := by
  unfold evalSignal
  rcases systemIdleMs prov with _ | q
  · rfl
  · by_cases h : q < m.thresholdMs <;> simp [h]

theorem evalSignal_lastSystemIdleMs (m : InactivityMonitor) (now : ℚ)
    (prov : Option ProviderOutcome) :
    (m.evalSignal now prov).lastSystemIdleMs = systemIdleMs prov := by
  unfold evalSignal
  rcases systemIdleMs prov with _ | q
  · rfl
  · by_cases h : q < m.thresholdMs <;> simp [h]

theorem evalSignal_lastEffectiveIdleMs (m : InactivityMonitor) (now : ℚ)
    (prov : Option ProviderOutcome) :
    (m.evalSignal now prov).lastEffectiveIdleMs
      = (systemIdleMs prov).getD (now - (m.evalSignal now prov).lastActivity) := by
  unfold evalSignal
  rcases systemIdleMs prov with _ | q
  · rfl
  · by_cases h : q < m.thresholdMs <;> simp [h]

/-- The invariant of claim C2, phrased on a raw monitor state. -/
def Inv (m : InactivityMonitor) : Prop :=
  m.pausedByIdle = true → m.timer.isRunning = false

theorem inv_init (timer : FakeTimer) (thresholdMs now : ℚ) :
    Inv (init timer thresholdMs now) := by
  intro h
  simp [init] at h

theorem inv_markActivity {m : InactivityMonitor} (ts : ℚ) (hm : Inv m) :
    Inv (m.markActivity ts) := by
  intro h
  unfold markActivity at h ⊢
  cases hr : m.timer.running <;> cases hp : m.pausedByIdle <;>
    simp_all [FakeTimer.isRunning, FakeTimer.start, Inv]

theorem inv_evalDecide {m : InactivityMonitor} (now : ℚ) (hm : Inv m) :
    Inv (m.evalDecide now) := by
  intro h
  unfold evalDecide at h ⊢
  cases hr : m.timer.running <;> cases hp : m.pausedByIdle <;>
    simp_all [FakeTimer.isRunning, FakeTimer.start, FakeTimer.pause, Inv] <;>
    split_ifs <;> simp_all

theorem inv_evaluate {m : InactivityMonitor} (now : ℚ)
    (prov : Option ProviderOutcome) (hm : Inv m) :
    Inv (m.evaluate now prov) := by
  unfold evaluate
  cases hg : m.evaluating
  · simp only [Bool.false_eq_true, if_false]
    have h1 : Inv ({ m with evaluating := true }.evalSignal now prov) := by
      intro h
      rw [evalSignal_pausedByIdle] at h
      rw [evalSignal_timer]
      exact hm h
    have h2 := inv_evalDecide now h1
    intro h
    exact h2 h
  · simpa using hm

theorem inv_clearAutoPause {m : InactivityMonitor} (now : ℚ) (_hm : Inv m) :
    Inv (m.clearAutoPause now) := by
  intro h
  unfold clearAutoPause at h ⊢
  cases hp : m.pausedByIdle <;> simp_all

theorem evaluate_pause_step (m : InactivityMonitor) (now : ℚ)
    (hg : m.evaluating = false) (hr : m.timer.isRunning = true)
    (h : m.thresholdMs ≤ now - m.lastActivity) :
    m.evaluate now none =
      { m with timer := m.timer.pause
               pausedByIdle := true
               notifyCount := m.notifyCount + 1
               lastSystemIdleMs := none
               lastEffectiveIdleMs := now - m.lastActivity } := by
  obtain ⟨⟨r, sc, pc⟩, th, p, ev, la, ls, le, nc⟩ := m
  simp only [FakeTimer.isRunning] at hr
  subst hr
  simp only at hg
  subst hg
  simp_all [evaluate, evalSignal, evalDecide, systemIdleMs, FakeTimer.pause,
    FakeTimer.isRunning]

theorem evaluate_still_idle (m : InactivityMonitor) (t : ℚ)
    (hg : m.evaluating = false) (hr : m.timer.isRunning = false)
    (hp : m.pausedByIdle = true) (h : m.thresholdMs ≤ t - m.lastActivity) :
    m.evaluate t none =
      { m with lastSystemIdleMs := none
               lastEffectiveIdleMs := t - m.lastActivity } := by
  obtain ⟨⟨r, sc, pc⟩, th, p, ev, la, ls, le, nc⟩ := m
  simp only [FakeTimer.isRunning] at hr
  subst hr
  simp only at hg hp
  subst hg
  subst hp
  simp_all [evaluate, evalSignal, evalDecide, systemIdleMs, FakeTimer.pause,
    FakeTimer.isRunning]
  simp [not_lt.mpr h]

theorem evalTimes_still_idle (m : InactivityMonitor) (later : List ℚ)
    (hg : m.evaluating = false) (hr : m.timer.isRunning = false)
    (hp : m.pausedByIdle = true)
    (hlater : ∀ t ∈ later, m.thresholdMs ≤ t - m.lastActivity) :
    (m.evalTimes later).timer = m.timer ∧
    (m.evalTimes later).notifyCount = m.notifyCount ∧
    (m.evalTimes later).pausedByIdle = true ∧
    (m.evalTimes later).lastActivity = m.lastActivity ∧
    (m.evalTimes later).thresholdMs = m.thresholdMs ∧
    (m.evalTimes later).evaluating = false := by
  induction later generalizing m with
  | nil => exact ⟨rfl, rfl, hp, rfl, rfl, hg⟩
  | cons t ts ih =>
      have ht : m.thresholdMs ≤ t - m.lastActivity := hlater t (by simp)
      have hstep := evaluate_still_idle m t hg hr hp ht
      have hfold : m.evalTimes (t :: ts) = (m.evaluate t none).evalTimes ts := rfl
      rw [hfold, hstep]
      have hrec := ih { m with lastSystemIdleMs := none
                               lastEffectiveIdleMs := t - m.lastActivity }
        hg hr hp (by intro u hu; exact hlater u (by simp [hu]))
      simpa using hrec

end InactivityMonitor

/-! ## Theorems -/

/-- C2: for every monitor state reachable from construction by any
sequence of `markActivity`, `evaluate` and `clearAutoPause` calls,
`pausedByIdle = true` implies `timer.isRunning() = false`; the
combination running ∧ pausedByIdle is unreachable. -/
theorem pausedByIdle_not_running_invariant (m : InactivityMonitor)
    (h : InactivityMonitor.Reachable m) :
    m.pausedByIdle = true → m.timer.isRunning = false := by
  induction h with
  | init timer thresholdMs now => exact InactivityMonitor.inv_init timer thresholdMs now
  | markActivity ts _ ih => exact InactivityMonitor.inv_markActivity ts ih
  | evaluate now prov _ ih => exact InactivityMonitor.inv_evaluate now prov ih
  | clearAutoPause now _ ih => exact InactivityMonitor.inv_clearAutoPause now ih

/-- Witness for C2: the reachable AutoPaused state obtained by letting a
running timer go idle past the threshold; the invariant yields that its
timer is not running. -/
theorem pausedByIdle_not_running_invariant_witness :
    ((InactivityMonitor.init ⟨true, 1, 0⟩ 1000 0).evaluate 2000 none).timer.isRunning
      = false :=
  pausedByIdle_not_running_invariant
    ((InactivityMonitor.init ⟨true, 1, 0⟩ 1000 0).evaluate 2000 none)
    (InactivityMonitor.Reachable.evaluate 2000 none
      (InactivityMonitor.Reachable.init ⟨true, 1, 0⟩ 1000 0))
    (by simp [InactivityMonitor.evaluate, InactivityMonitor.evalSignal,
      InactivityMonitor.evalDecide, InactivityMonitor.init, systemIdleMs,
      FakeTimer.pause, FakeTimer.isRunning]; norm_num)

/-- C5: with a positive threshold, no idle-time provider, a running timer
and no further activity, the first `evaluate()` at an instant at least
`thresholdMs` past `lastActivity` pauses the timer exactly once (one
`pause()` call, one notification, AutoPaused entered), and any further
sequence of `evaluate()` ticks while still idle adds no `pause()` call,
no `start()` call and no notification. -/
theorem autopause_exactly_once (m : InactivityMonitor) (now : ℚ) (later : List ℚ)
    (_hth : 0 < m.thresholdMs) (hg : m.evaluating = false)
    (hr : m.timer.isRunning = true)
    (hidle : m.thresholdMs ≤ now - m.lastActivity)
    (hlater : ∀ t ∈ later, m.thresholdMs ≤ t - m.lastActivity) :
    ((m.evaluate now none).timer.pauseCalls = m.timer.pauseCalls + 1) ∧
    ((m.evaluate now none).timer.isRunning = false) ∧
    ((m.evaluate now none).pausedByIdle = true) ∧
    ((m.evaluate now none).notifyCount = m.notifyCount + 1) ∧
    (((m.evaluate now none).evalTimes later).timer.pauseCalls
        = (m.evaluate now none).timer.pauseCalls) ∧
    (((m.evaluate now none).evalTimes later).timer.startCalls
        = (m.evaluate now none).timer.startCalls) ∧
    (((m.evaluate now none).evalTimes later).notifyCount
        = (m.evaluate now none).notifyCount) := by
  have hstep := InactivityMonitor.evaluate_pause_step m now hg hr hidle
  have hrun : m.timer.running = true := hr
  rw [hstep]
  have hrec := InactivityMonitor.evalTimes_still_idle
    { m with timer := m.timer.pause
             pausedByIdle := true
             notifyCount := m.notifyCount + 1
             lastSystemIdleMs := none
             lastEffectiveIdleMs := now - m.lastActivity }
    later hg (by simp [FakeTimer.pause, FakeTimer.isRunning, hrun]) rfl
    (by intro u hu; exact hlater u hu)
  refine ⟨?_, ?_, rfl, rfl, ?_, ?_, ?_⟩
  · simp [FakeTimer.pause, hrun]
  · simp [FakeTimer.pause, FakeTimer.isRunning, hrun]
  · rw [hrec.1]
  · rw [hrec.1]
  · exact hrec.2.1

/-- Witness for C5: a running timer, threshold 1000 ms, last activity at
instant 0; the tick at 1500 pauses and notifies once, and the further
ticks at 1750 and 2000 add nothing. -/
theorem autopause_exactly_once_witness :
    ((((InactivityMonitor.init ⟨true, 1, 0⟩ 1000 0).evaluate 1500 none).timer.pauseCalls
        = (InactivityMonitor.init ⟨true, 1, 0⟩ 1000 0).timer.pauseCalls + 1) ∧
      (((InactivityMonitor.init ⟨true, 1, 0⟩ 1000 0).evaluate 1500 none).timer.isRunning
        = false) ∧
      (((InactivityMonitor.init ⟨true, 1, 0⟩ 1000 0).evaluate 1500 none).pausedByIdle
        = true) ∧
      (((InactivityMonitor.init ⟨true, 1, 0⟩ 1000 0).evaluate 1500 none).notifyCount
        = (InactivityMonitor.init ⟨true, 1, 0⟩ 1000 0).notifyCount + 1) ∧
      ((((InactivityMonitor.init ⟨true, 1, 0⟩ 1000 0).evaluate 1500 none).evalTimes
            [1750, 2000]).timer.pauseCalls
        = ((InactivityMonitor.init ⟨true, 1, 0⟩ 1000 0).evaluate 1500 none).timer.pauseCalls) ∧
      ((((InactivityMonitor.init ⟨true, 1, 0⟩ 1000 0).evaluate 1500 none).evalTimes
            [1750, 2000]).timer.startCalls
        = ((InactivityMonitor.init ⟨true, 1, 0⟩ 1000 0).evaluate 1500 none).timer.startCalls) ∧
      ((((InactivityMonitor.init ⟨true, 1, 0⟩ 1000 0).evaluate 1500 none).evalTimes
            [1750, 2000]).notifyCount
        = ((InactivityMonitor.init ⟨true, 1, 0⟩ 1000 0).evaluate 1500 none).notifyCount)) :=
  autopause_exactly_once (InactivityMonitor.init ⟨true, 1, 0⟩ 1000 0) 1500 [1750, 2000]
    (by norm_num [InactivityMonitor.init]) rfl rfl
    (by norm_num [InactivityMonitor.init])
    (by intro t ht; fin_cases ht <;> norm_num [InactivityMonitor.init])

/-- C7: when the provider yields a valid non-negative finite value with
`idleSeconds * 1000 < thresholdMs`, `evaluate()` leaves a running timer
untouched (no pause, no notification) for every `now` — including
`now − lastActivity ≥ thresholdMs` — and instead sets `lastActivity = now`
and uses the system value as the effective idle of the decision. -/
theorem system_signal_overrides_local (m : InactivityMonitor) (now q : ℚ)
    (hg : m.evaluating = false) (hr : m.timer.isRunning = true)
    (hq : 0 ≤ q) (hlt : q * 1000 < m.thresholdMs) :
    ((m.evaluate now (some (.value (some q)))).timer = m.timer) ∧
    ((m.evaluate now (some (.value (some q)))).pausedByIdle = m.pausedByIdle) ∧
    ((m.evaluate now (some (.value (some q)))).notifyCount = m.notifyCount) ∧
    ((m.evaluate now (some (.value (some q)))).lastActivity = now) ∧
    ((m.evaluate now (some (.value (some q)))).lastSystemIdleMs = some (q * 1000)) ∧
    ((m.evaluate now (some (.value (some q)))).lastEffectiveIdleMs = q * 1000) := by
  obtain ⟨⟨r, sc, pc⟩, th, p, ev, la, ls, le, nc⟩ := m
  simp only [FakeTimer.isRunning] at hr
  subst hr
  simp only at hg
  subst hg
  simp only at hlt
  simp_all [InactivityMonitor.evaluate, InactivityMonitor.evalSignal,
    InactivityMonitor.evalDecide, systemIdleMs, FakeTimer.pause, FakeTimer.isRunning]
  simp [not_le.mpr hlt]

/-- Witness for C7: threshold 1000 ms, provider reports 0.5 s idle, local
staleness 1500 ms ≥ threshold; the running timer is not paused and
`lastActivity` jumps to 1500. -/
theorem system_signal_overrides_local_witness :
    (((InactivityMonitor.init ⟨true, 1, 0⟩ 1000 0).evaluate 1500
          (some (.value (some (1 / 2))))).timer
        = (InactivityMonitor.init ⟨true, 1, 0⟩ 1000 0).timer) ∧
    (((InactivityMonitor.init ⟨true, 1, 0⟩ 1000 0).evaluate 1500
          (some (.value (some (1 / 2))))).pausedByIdle
        = (InactivityMonitor.init ⟨true, 1, 0⟩ 1000 0).pausedByIdle) ∧
    (((InactivityMonitor.init ⟨true, 1, 0⟩ 1000 0).evaluate 1500
          (some (.value (some (1 / 2))))).notifyCount
        = (InactivityMonitor.init ⟨true, 1, 0⟩ 1000 0).notifyCount) ∧
    (((InactivityMonitor.init ⟨true, 1, 0⟩ 1000 0).evaluate 1500
          (some (.value (some (1 / 2))))).lastActivity = 1500) ∧
    (((InactivityMonitor.init ⟨true, 1, 0⟩ 1000 0).evaluate 1500
          (some (.value (some (1 / 2))))).lastSystemIdleMs = some (1 / 2 * 1000)) ∧
    (((InactivityMonitor.init ⟨true, 1, 0⟩ 1000 0).evaluate 1500
          (some (.value (some (1 / 2))))).lastEffectiveIdleMs = 1 / 2 * 1000) :=
  system_signal_overrides_local (InactivityMonitor.init ⟨true, 1, 0⟩ 1000 0) 1500 (1 / 2)
    rfl rfl (by norm_num) (by norm_num [InactivityMonitor.init])

/-- C1: when the monitor's `enabled` flag is false, `evaluate()` still
refreshes the diagnostic fields `lastSystemIdleMs` and
`lastEffectiveIdleMs` but performs no automatic transition — it never
changes the timer, never changes `pausedByIdle`, fires no notification —
and the `setEnabled(bool)` / `setThresholdMs(ms)` mutators exist and set
the configuration read by the next `evaluate()`. -/
theorem setters_and_disabled_evaluate (m : MonitorWithEnabled) (now : ℚ)
    (prov : Option ProviderOutcome) (ms : ℚ) (b : Bool)
    (hg : m.evaluating = false) :
    ((m.setEnabled b).enabled = b) ∧
    ((m.setEnabled b).toInactivityMonitor = m.toInactivityMonitor) ∧
    ((m.setThresholdMs ms).thresholdMs = ms) ∧
    ((m.setThresholdMs ms).enabled = m.enabled) ∧
    (((m.setEnabled false).evaluate now prov).timer = m.timer) ∧
    (((m.setEnabled false).evaluate now prov).pausedByIdle = m.pausedByIdle) ∧
    (((m.setEnabled false).evaluate now prov).notifyCount = m.notifyCount) ∧
    (((m.setEnabled false).evaluate now prov).evaluating = false) ∧
    (((m.setEnabled false).evaluate now prov).lastSystemIdleMs = systemIdleMs prov) ∧
    (((m.setEnabled false).evaluate now prov).lastEffectiveIdleMs
        = (systemIdleMs prov).getD
            (now - ((m.setEnabled false).evaluate now prov).lastActivity)) := by
  refine ⟨rfl, rfl, rfl, rfl, ?_, ?_, ?_, ?_, ?_, ?_⟩ <;>
    simp [MonitorWithEnabled.evaluate, MonitorWithEnabled.setEnabled, hg,
      InactivityMonitor.evalSignal_timer, InactivityMonitor.evalSignal_pausedByIdle,
      InactivityMonitor.evalSignal_notifyCount,
      InactivityMonitor.evalSignal_lastSystemIdleMs,
      InactivityMonitor.evalSignal_lastEffectiveIdleMs]

/-- A sample monitor with the `enabled` flag, used to witness C1: timer
running, threshold 1000 ms, last activity at instant 0, currently
enabled. -/
def sampleMonitorWithEnabled : MonitorWithEnabled :=
  { timer := ⟨true, 1, 0⟩
    thresholdMs := 1000
    pausedByIdle := false
    evaluating := false
    lastActivity := 0
    lastSystemIdleMs := none
    lastEffectiveIdleMs := 0
    notifyCount := 0
    enabled := true }

/-- Witness for C1: with the sample monitor disabled, a tick at 1500 with
a provider reporting 2 s idle (over threshold) changes neither the timer
nor `pausedByIdle` nor the notification count, yet refreshes both
diagnostic fields. -/
theorem setters_and_disabled_evaluate_witness :
    ((sampleMonitorWithEnabled.setEnabled true).enabled = true) ∧
    ((sampleMonitorWithEnabled.setEnabled true).toInactivityMonitor
        = sampleMonitorWithEnabled.toInactivityMonitor) ∧
    ((sampleMonitorWithEnabled.setThresholdMs 500).thresholdMs = 500) ∧
    ((sampleMonitorWithEnabled.setThresholdMs 500).enabled
        = sampleMonitorWithEnabled.enabled) ∧
    (((sampleMonitorWithEnabled.setEnabled false).evaluate 1500
          (some (.value (some 2)))).timer = sampleMonitorWithEnabled.timer) ∧
    (((sampleMonitorWithEnabled.setEnabled false).evaluate 1500
          (some (.value (some 2)))).pausedByIdle
        = sampleMonitorWithEnabled.pausedByIdle) ∧
    (((sampleMonitorWithEnabled.setEnabled false).evaluate 1500
          (some (.value (some 2)))).notifyCount
        = sampleMonitorWithEnabled.notifyCount) ∧
    (((sampleMonitorWithEnabled.setEnabled false).evaluate 1500
          (some (.value (some 2)))).evaluating = false) ∧
    (((sampleMonitorWithEnabled.setEnabled false).evaluate 1500
          (some (.value (some 2)))).lastSystemIdleMs
        = systemIdleMs (some (.value (some 2)))) ∧
    (((sampleMonitorWithEnabled.setEnabled false).evaluate 1500
          (some (.value (some 2)))).lastEffectiveIdleMs
        = (systemIdleMs (some (.value (some 2)))).getD
            (1500 - ((sampleMonitorWithEnabled.setEnabled false).evaluate 1500
              (some (.value (some 2)))).lastActivity)) :=
  setters_and_disabled_evaluate sampleMonitorWithEnabled 1500
    (some (.value (some 2))) 500 true rfl

/-- C9: `Timer.reset()` unconditionally zeroes `accumulatedMs` and clears
`startTimestamp` without folding an in-progress running interval into
`accumulatedMs` (`getElapsedMs` is `0` right after `reset` even while
running), whereas `pause()` does fold the interval in by adding
`now − startTimestamp` to `accumulatedMs`. -/
theorem reset_drops_pause_folds (t : Timer) (now s : ℚ)
    (h : t.startTimestamp = some s) :
    t.reset.accumulatedMs = 0 ∧
    t.reset.startTimestamp = none ∧
    t.reset.getElapsedMs now = 0 ∧
    (t.pause now).accumulatedMs = t.accumulatedMs + (now - s) ∧
    (t.pause now).startTimestamp = none := by
  simp [Timer.reset, Timer.getElapsedMs, Timer.pause, Timer.isRunning, h]

/-- Witness for C9: a timer running since instant 5 with 3 ms accumulated,
evaluated at instant 10. -/
theorem reset_drops_pause_folds_witness :
    (Timer.mk (some 5) 3).reset.accumulatedMs = 0 ∧
    (Timer.mk (some 5) 3).reset.startTimestamp = none ∧
    (Timer.mk (some 5) 3).reset.getElapsedMs 10 = 0 ∧
    ((Timer.mk (some 5) 3).pause 10).accumulatedMs = 3 + (10 - 5) ∧
    ((Timer.mk (some 5) 3).pause 10).startTimestamp = none :=
  reset_drops_pause_folds (Timer.mk (some 5) 3) 10 5 rfl

/-- C10: the `?? 0` null-coalescing fallbacks in `Timer.pause()` and
`Timer.getElapsedMs()` are unreachable: both are evaluated only after
`isRunning()` has established `startTimestamp` is non-null, so replacing
the literal `0` default with any value `d` never changes the result. -/
theorem nullish_fallback_unreachable (t : Timer) (now d : ℚ) :
    t.pauseWithDefault now d = t.pause now ∧
    t.getElapsedMsWithDefault now d = t.getElapsedMs now := by
  cases h : t.startTimestamp <;>
    simp [Timer.pauseWithDefault, Timer.pause, Timer.getElapsedMsWithDefault,
      Timer.getElapsedMs, Timer.isRunning, h]

/-- C6: `markActivity(timestamp)` sets `lastActivity` unconditionally, and
starts the timer, clears `pausedByIdle` and notifies iff the prior state
was AutoPaused (timer not running, `pausedByIdle` set); otherwise it
leaves the timer, `pausedByIdle` and the notification count untouched. -/
theorem markActivity_spec (m : InactivityMonitor) (ts : ℚ) :
    (m.markActivity ts).lastActivity = ts ∧
    (if m.timer.running = false ∧ m.pausedByIdle = true then
        (m.markActivity ts).pausedByIdle = false ∧
        (m.markActivity ts).timer.running = true ∧
        (m.markActivity ts).timer.startCalls = m.timer.startCalls + 1 ∧
        (m.markActivity ts).timer.pauseCalls = m.timer.pauseCalls ∧
        (m.markActivity ts).notifyCount = m.notifyCount + 1
      else
        (m.markActivity ts).timer = m.timer ∧
        (m.markActivity ts).pausedByIdle = m.pausedByIdle ∧
        (m.markActivity ts).notifyCount = m.notifyCount) := by
  cases hr : m.timer.running <;> cases hp : m.pausedByIdle <;>
    simp [InactivityMonitor.markActivity, FakeTimer.start, FakeTimer.isRunning, hr, hp]

/-- C8: `clearAutoPause()` never calls `timer.start()` (the timer is left
exactly as it was); in every state it sets `lastActivity` to the current
instant and `lastEffectiveIdleMs` to 0, and it clears `pausedByIdle` and
notifies iff `pausedByIdle` was set. -/
theorem clearAutoPause_spec (m : InactivityMonitor) (now : ℚ) :
    (m.clearAutoPause now).lastActivity = now ∧
    (m.clearAutoPause now).lastEffectiveIdleMs = 0 ∧
    (m.clearAutoPause now).timer = m.timer ∧
    (if m.pausedByIdle = true then
        (m.clearAutoPause now).pausedByIdle = false ∧
        (m.clearAutoPause now).notifyCount = m.notifyCount + 1
      else
        (m.clearAutoPause now).pausedByIdle = m.pausedByIdle ∧
        (m.clearAutoPause now).notifyCount = m.notifyCount) := by
  cases hp : m.pausedByIdle <;> simp [InactivityMonitor.clearAutoPause, hp]

/-- C4: `evaluate()` on a monitor whose re-entrancy guard is set is a
no-op returning the state unchanged, regardless of the provider behaviour
at that tick (the dropped tick queries nothing and mutates nothing). -/
theorem evaluate_inflight_noop (m : InactivityMonitor) (now : ℚ)
    (prov : Option ProviderOutcome) (h : m.evaluating = true) :
    m.evaluate now prov = m := by
  simp [InactivityMonitor.evaluate, h]

/-- Witness for C4: a concrete mid-flight monitor state (guard set) on
which a concurrent `evaluate()` with a throwing provider changes
nothing. -/
theorem evaluate_inflight_noop_witness :
    (InactivityMonitor.mk ⟨true, 1, 0⟩ 1000 false true 0 none 0 0).evaluate 500
        (some .syncThrow)
      = InactivityMonitor.mk ⟨true, 1, 0⟩ 1000 false true 0 none 0 0 :=
  evaluate_inflight_noop (InactivityMonitor.mk ⟨true, 1, 0⟩ 1000 false true 0 none 0 0)
    500 (some .syncThrow) rfl

/-- C3: `evaluate()` is a total function of the monitor state for every
provider behaviour — a synchronously throwing provider and a rejecting
deferred result are handled exactly like an absent signal rather than
aborting the call — and the re-entrancy guard is exactly preserved: a
call entered with the guard clear exits with the guard clear, so a
subsequent `evaluate()` is never permanently blocked. -/
theorem evaluate_never_fails_guard_cleared (m : InactivityMonitor) (now : ℚ)
    (prov : Option ProviderOutcome) :
    (m.evaluate now prov).evaluating = m.evaluating ∧
    m.evaluate now (some .syncThrow) = m.evaluate now none ∧
    m.evaluate now (some .asyncReject) = m.evaluate now none := by
  refine ⟨?_, ?_, ?_⟩ <;>
    cases hg : m.evaluating <;>
      simp [InactivityMonitor.evaluate, InactivityMonitor.evalSignal, systemIdleMs, hg]

end Tractivity
